import Mathlib

/-!
# Verification of the cart/checkout/order engine of `the-electronics-store-api`

Shallow embedding of the monetary-state engine implemented in
`src/services/requests.js`, the cart routes (`services/routes/cart.js`,
duplicated in `services/routes/account.js`), the checkout-start route in
`services/routes/address.js` and the order-creation route in
`services/routes/orders.js`.

Modelling conventions:
* JavaScript `number` arithmetic is embedded as exact rational arithmetic
  (`ℚ`).  All monetary quantities appearing in the claims are at most a few
  hundred dollars with 2-decimal inputs, far below the range where IEEE-754
  doubles and exact rationals can disagree after 2-decimal rounding.
* Postgres `DECIMAL(7,2)` columns (cart/order `subtotal`, `taxes`, `total`,
  see `prisma/schema.prisma`) round the written value to 2 decimal places;
  this is modelled by applying `round2` at every write of such a column,
  matching the comment in `requests.js` ("The postgresql db rounds decimal
  values to 2 decimal places when entered into the db").
* `Number.prototype.toFixed(n)` / Postgres rounding are both modelled as
  round-half-up at `n` decimals (`round2`, `round1`).
* `Math.floor(x * 100) / 100` is modelled exactly as `floor2`.
* The system is per-user: every route first resolves the authenticated
  user's single cart (middleware `get-cart.js`) and at most one checkout
  session (`checkout_session` is 1:1 per user while open), so the state
  carries one cart row and an optional checkout session.  Rows of tables
  are carried as lists.  Only columns that the modelled control flow reads
  or that the claims mention are carried.
-/

namespace ElectronicsStore

/-- Round-half-up to 2 decimal places: the effect of writing a JS number
into a Postgres `DECIMAL(7,2)` column, and of `parseFloat(x.toFixed(2))`. -/
def round2 (x : ℚ) : ℚ := ((Int.floor (x * 100 + 1/2) : ℤ) : ℚ) / 100

/-- Round-half-up to 1 decimal place: the numeric value of `x.toFixed(1)`. -/
def round1 (x : ℚ) : ℚ := ((Int.floor (x * 10 + 1/2) : ℤ) : ℚ) / 10

/-- Truncation to 2 decimal places: `Math.floor(x * 100) / 100`
(`requests.js` lines 307 and 316). -/
def floor2 (x : ℚ) : ℚ := ((Int.floor (x * 100) : ℤ) : ℚ) / 100

/-- A `product` row (`prisma/schema.prisma` model `product`); only the
columns read by the cart/order engine are carried. -/
structure Product where
  id : Nat
  price : ℚ
  discount_percent : Int
  inventory : Int
  total_sold : Int
deriving Repr, DecidableEq

/-- A `cart_product` row for the user's cart (composite key
`(product_id, cart_id)`; `quantity` defaults to 1 on create). -/
structure CartProduct where
  product_id : Nat
  quantity : Int
deriving Repr, DecidableEq

/-- The user's `cart` row together with its `cart_product` rows (the shape
returned by `getCartByUserId`, `requests.js` line 146). -/
structure Cart where
  id : Nat
  num_items : Int
  subtotal : ℚ
  taxes : ℚ
  total : ℚ
  cart_product : List CartProduct
deriving Repr, DecidableEq

/-- The user's open `checkout_session` row, if any.  `stage` defaults to
`"shipping"` on create (`prisma/schema.prisma` line 126).  The row id and
`user_id` are omitted: the session is 1:1 per user while open and every
access goes through `user_id`. -/
structure CheckoutSession where
  cart_id : Nat
  stage : String
  shipping_address_id : Option Nat
  billing_address_id : Option Nat
  payment_card_id : Option Nat
deriving Repr, DecidableEq

/-- An `address` row of the (single) user; only id and type are read by the
modelled control flow. -/
structure Address where
  id : Nat
  address_type : String
deriving Repr, DecidableEq

/-- A `payment_card` row of the (single) user. -/
structure PaymentCard where
  id : Nat
  payment_card_type : String
deriving Repr, DecidableEq

/-- An `order` row (snapshot created by `addOrder`, `requests.js` line 711). -/
structure OrderRow where
  id : Nat
  num_items : Int
  subtotal : ℚ
  taxes : ℚ
  total : ℚ
  payment_card_id : Nat
  shipping_address_id : Nat
  billing_address_id : Nat
deriving Repr, DecidableEq

/-- An `order_product` row (`requests.js` line 728). -/
structure OrderProduct where
  order_id : Nat
  product_id : Nat
  quantity : Int
deriving Repr, DecidableEq

/-- The per-user database state.  `next_id` models the autoincrement
counter used for rows created during order commit. -/
structure DB where
  products : List Product
  cart : Cart
  checkout : Option CheckoutSession
  addresses : List Address
  payment_cards : List PaymentCard
  orders : List OrderRow
  order_products : List OrderProduct
  next_id : Nat
deriving Repr, DecidableEq

/-- `discountedUnitPrice`: the `finalPrice` computed identically at
`requests.js` lines 194-195, 247-248 and 305-306:
`product.price - (product.price * (product.discount_percent / 100))`.
No rounding is applied at this step. -/
def discountedUnitPrice (p : Product) : ℚ :=
  p.price - p.price * ((p.discount_percent : ℚ) / 100)

/-- `addProductToCart(cartId, productId)` (`requests.js` lines 164-223).
Upserts the cart line, then recomputes the aggregates:
`updatedSubtotal = cart.subtotal + finalPrice`,
`updatedTaxes = updatedSubtotal * 0.13`,
`total = parseFloat(updatedSubtotal.toFixed(2)) + parseFloat(updatedTaxes.toFixed(2))`,
and writes all three (the `DECIMAL(7,2)` columns round on write).
Returns `none` when the product row is absent (the JS code would throw at
line 194; unreachable from the route, which checks existence first). -/
def addProductToCart (s : DB) (productId : Nat) : Option DB :=
  let lines :=
    if (s.cart.cart_product.find? (fun cp => cp.product_id = productId)).isSome then
      s.cart.cart_product.map (fun cp =>
        if cp.product_id = productId then { cp with quantity := cp.quantity + 1 } else cp)
    else
      s.cart.cart_product ++ [{ product_id := productId, quantity := 1 }]
  match s.products.find? (fun p => p.id = productId) with
  | none => none
  | some product =>
    let finalPrice := discountedUnitPrice product
    let updatedSubtotal := s.cart.subtotal + finalPrice
    let updatedTaxes := updatedSubtotal * (13/100)
    let total := round2 updatedSubtotal + round2 updatedTaxes
    some { s with cart := { s.cart with
      cart_product := lines
      subtotal := round2 updatedSubtotal
      taxes := round2 updatedTaxes
      total := round2 total
      num_items := s.cart.num_items + 1 } }

/-- `removeProductFromCart(cartId, productId)` (`requests.js` lines
226-286).  Returns the JS boolean (`true` = removed) paired with the new
state; `none` models the unreachable throw when the line exists but the
product row is absent (the route checks product existence first). -/
def removeProductFromCart (s : DB) (productId : Nat) : Option (Bool × DB) :=
  match s.cart.cart_product.find? (fun cp => cp.product_id = productId) with
  | none => some (false, s)
  | some foundProduct =>
    if 1 < foundProduct.quantity then
      let lines := s.cart.cart_product.map (fun cp =>
        if cp.product_id = productId then { cp with quantity := cp.quantity - 1 } else cp)
      match s.products.find? (fun p => p.id = productId) with
      | none => none
      | some product =>
        let finalPrice := discountedUnitPrice product
        let updatedSubtotal := s.cart.subtotal - finalPrice
        let updatedTaxes := updatedSubtotal * (13/100)
        let total := round2 updatedSubtotal + round2 updatedTaxes
        some (true, { s with cart := { s.cart with
          cart_product := lines
          subtotal := round2 updatedSubtotal
          taxes := round2 updatedTaxes
          total := round2 total
          num_items := s.cart.num_items - 1 } })
    else
      some (false, s)

/-- `deleteProductFromCart(cartId, productId)` (`requests.js` lines
289-414), including its ad hoc rounding-adjustment block.  JS details
encoded below:
* line 330 turns `cartProductTotalTruncated` into the string
  `cptt0.toFixed(1)`, so the comparison at line 335 (`string !== number`)
  is always true and the block at 336-346 is always entered;
* line 342 compares the two `toFixed(1)` strings, i.e. the 1-decimal
  roundings of `cptt0` and of the stored subtotal;
* lines 356-371: both guarded assignments set
  `cartProductTotalTruncated = finalPrice * quantity`; after the first one
  fires the second guard is false, so jointly they are
  "if subVal > cptt then cptt := finalPrice * quantity";
* line 373 takes `parseFloat` of the possibly-string values, recovering
  the numeric values tracked here. -/
def deleteProductFromCart (s : DB) (productId : Nat) : Option (Bool × DB) :=
  match s.cart.cart_product.find? (fun cp => cp.product_id = productId) with
  | none => some (false, s)
  | some foundProduct =>
    let lines := s.cart.cart_product.filter (fun cp => ¬ cp.product_id = productId)
    let quantity := foundProduct.quantity
    match s.products.find? (fun p => p.id = productId) with
    | none => none
    | some product =>
      let discountPercent := (product.discount_percent : ℚ) / 100
      let finalPrice := floor2 (discountedUnitPrice product)
      let cptt0 := floor2 (finalPrice * quantity)
      let adjust := ¬ discountPercent = 0 ∧ s.cart.subtotal > cptt0
      let subVal :=
        if adjust ∧ round1 cptt0 = round1 s.cart.subtotal then round1 s.cart.subtotal
        else s.cart.subtotal
      let cptt1 := if adjust then round1 cptt0 else cptt0
      let cptt2 := if subVal > cptt1 then finalPrice * quantity else cptt1
      let updatedSubtotal := subVal - cptt2
      let updatedTaxes := updatedSubtotal * (13/100)
      let total := round2 updatedSubtotal + round2 updatedTaxes
      some (true, { s with cart := { s.cart with
        cart_product := lines
        subtotal := round2 updatedSubtotal
        taxes := round2 updatedTaxes
        total := round2 total
        num_items := s.cart.num_items - quantity } })

/-- Result of `POST /cart/add/:productId`. -/
inductive AddResult where
  | ok
  | productNotFound
  | outOfStock
  | insufficientInventory
  | serverError
deriving Repr, DecidableEq

/-- Result of `POST /cart/remove/:productId` and `GET /cart/delete/:productId`. -/
inductive RemoveResult where
  | ok
  | productNotFound
  | notInCart
  | serverError
deriving Repr, DecidableEq

/-- `POST /cart/add/:productId` (`routes/cart.js` lines 148-175, duplicated
at `routes/account.js` lines 1243-1278): product-existence check (404),
out-of-stock check (400), then the inventory guard — the loop fails iff
some cart line for this product has `quantity === product.inventory` —
then `addProductToCart` and, if a checkout session exists, its stage is set
to `"shipping"`. -/
def cartAdd (s : DB) (productId : Nat) : AddResult × DB :=
  match s.products.find? (fun p => p.id = productId) with
  | none => (.productNotFound, s)
  | some product =>
    if product.inventory = 0 then (.outOfStock, s)
    else if s.cart.cart_product.any
        (fun cp => cp.product_id = productId ∧ cp.quantity = product.inventory) then
      (.insufficientInventory, s)
    else
      match addProductToCart s productId with
      | none => (.serverError, s)
      | some s1 =>
        match s1.checkout with
        | none => (.ok, s1)
        | some c => (.ok, { s1 with checkout := some { c with stage := "shipping" } })

/-- Shared tail of the remove/delete routes (`routes/cart.js` lines
232-246, `routes/account.js` lines 1337-1351 and 1417-1431): on a
successful removal, if a checkout session exists it is deleted when the
updated cart is empty and otherwise its stage is set to `"shipping"`. -/
def checkoutInvalidation (s : DB) : DB :=
  match s.checkout with
  | none => s
  | some c =>
    if s.cart.num_items = 0 then { s with checkout := none }
    else { s with checkout := some { c with stage := "shipping" } }

/-- `POST /cart/remove/:productId` (`routes/cart.js` lines 223-255,
duplicated at `routes/account.js` lines 1326-1356). -/
def cartRemove (s : DB) (productId : Nat) : RemoveResult × DB :=
  match s.products.find? (fun p => p.id = productId) with
  | none => (.productNotFound, s)
  | some _ =>
    match removeProductFromCart s productId with
    | none => (.serverError, s)
    | some (false, s1) => (.notInCart, s1)
    | some (true, s1) => (.ok, checkoutInvalidation s1)

/-- `GET /cart/delete/:productId` (`routes/account.js` lines 1406-1436). -/
def cartDelete (s : DB) (productId : Nat) : RemoveResult × DB :=
  match s.products.find? (fun p => p.id = productId) with
  | none => (.productNotFound, s)
  | some _ =>
    match deleteProductFromCart s productId with
    | none => (.serverError, s)
    | some (false, s1) => (.notInCart, s1)
    | some (true, s1) => (.ok, checkoutInvalidation s1)

/-- Result of `POST /checkout`. -/
inductive CheckoutStartResult where
  | ok
  | cartEmpty
  | alreadyExists
deriving Repr, DecidableEq

/-- `POST /checkout` (`routes/address.js` lines 222-238): fails when the
cart is empty, fails when a session already exists, otherwise `addCheckout`
(`requests.js` line 417) creates the session with only `user_id` and
`cart_id` set, so `stage` takes its schema default `"shipping"` and the
address/payment references are null. -/
def startCheckout (s : DB) : CheckoutStartResult × DB :=
  if s.cart.num_items = 0 then (.cartEmpty, s)
  else
    match s.checkout with
    | some _ => (.alreadyExists, s)
    | none =>
      let session : CheckoutSession :=
        { cart_id := s.cart.id
          stage := "shipping"
          shipping_address_id := none
          billing_address_id := none
          payment_card_id := none }
      (.ok, { s with checkout := some session })

/-- `getAddressById(userId, addressId)` (`requests.js` lines 550-558);
the single modelled user owns every address row carried in the state. -/
def getAddressById (s : DB) (addressId : Nat) : Option Address :=
  s.addresses.find? (fun a => a.id = addressId)

/-- The persisted-write sequence of `addOrder(userId, cartId)`
(`requests.js` lines 653-792), precomputed from the values the function
reads up front: the checkout session with its included cart
(`getCheckout`, line 655), the session's shipping address (line 658), the
user's payment card (`getPaymentCard` = `findFirst` by user, line 697) and
the autoincrement ids of the rows it creates.  Each list element is one
persisted write step, in source order:
1. create the `"shipping_order"` address snapshot (line 672);
2. when `billing_address_id !== shipping_address_id`, create the
   `"billing_order"` address snapshot (line 691) — otherwise the code
   re-reads the address just created in step 1 (line 693) and no write
   happens;
3. create the `"order"` payment-card snapshot (line 708);
4. create the `order` row copying the cart aggregates (line 711);
5. create the `order_product` rows, one per cart line (lines 727-737);
6. delete the checkout session (line 740);
7. delete the cart's `cart_product` rows (line 747);
8. reset the cart aggregates to zero (line 754) — an update, the cart row
   itself persists;
9. when the checkout shipping address was a `"shipping_alternate"`
   address, delete every such address of the user (line 768);
10. for each order product, increment the product's `total_sold` and
    decrement its `inventory` by the line quantity (lines 777-791) — with
    no insufficiency check of any kind.
The whole function runs as individual Prisma calls, not inside a
transaction.  `none` models the thrown exception when the session, its
shipping address, the billing address or the payment card cannot be
resolved (steps are only reached with these present when called from the
`/orders/create` route, which checks the references are set).

`orderWriteList` builds the write steps from the initial reads:
`billingDiffers` says whether step 2 creates a separate billing snapshot
(`checkoutSession.billing_address_id !== checkoutSession.shipping_address_id`);
the autoincrement ids of the snapshot rows are laid out accordingly.
`addOrderWrites` performs the reads and dispatches. -/
def orderWriteList (s : DB) (checkoutShippingAddress : Address)
    (billingDiffers : Bool) : List (DB → DB) :=
  let idS := s.next_id
  let idB := if billingDiffers then idS + 1 else idS
  let idP := if billingDiffers then idS + 2 else idS + 1
  let idO := if billingDiffers then idS + 3 else idS + 2
  let cartSnap := s.cart
  let orderProducts := cartSnap.cart_product.map (fun cp =>
    ({ order_id := idO, product_id := cp.product_id,
       quantity := cp.quantity } : OrderProduct))
  let w1 : DB → DB := fun st =>
    { st with addresses := st.addresses ++ [{ id := idS, address_type := "shipping_order" }],
              next_id := idS + 1 }
  let w2 : List (DB → DB) :=
    if billingDiffers then
      [fun st => { st with addresses := st.addresses ++ [{ id := idB, address_type := "billing_order" }],
                           next_id := idB + 1 }]
    else []
  let w3 : DB → DB := fun st =>
    { st with payment_cards := st.payment_cards ++ [{ id := idP, payment_card_type := "order" }],
              next_id := idP + 1 }
  let orderRow : OrderRow :=
    { id := idO, num_items := cartSnap.num_items,
      subtotal := round2 cartSnap.subtotal,
      taxes := round2 cartSnap.taxes,
      total := round2 cartSnap.total,
      payment_card_id := idP,
      shipping_address_id := idS,
      billing_address_id := idB }
  let w4 : DB → DB := fun st =>
    { st with orders := st.orders ++ [orderRow], next_id := idO + 1 }
  let w5 : DB → DB := fun st =>
    { st with order_products := st.order_products ++ orderProducts }
  let w6 : DB → DB := fun st => { st with checkout := none }
  let w7 : DB → DB := fun st =>
    { st with cart := { st.cart with cart_product := [] } }
  let w8 : DB → DB := fun st =>
    { st with cart := { st.cart with
        num_items := 0, subtotal := 0, taxes := 0, total := 0 } }
  let w9 : List (DB → DB) :=
    if checkoutShippingAddress.address_type = "shipping_alternate" then
      [fun st => { st with addresses :=
        st.addresses.filter (fun a => ¬ a.address_type = "shipping_alternate") }]
    else []
  let w10 : DB → DB := fun st =>
    { st with products := orderProducts.foldl (fun ps op =>
        ps.map (fun p =>
          if p.id = op.product_id then
            { p with total_sold := p.total_sold + op.quantity,
                     inventory := p.inventory - op.quantity }
          else p)) st.products }
  [w1] ++ w2 ++ [w3, w4, w5, w6, w7, w8] ++ w9 ++ [w10]

def addOrderWrites (s : DB) : Option (List (DB → DB)) :=
  match s.checkout with
  | none => none
  | some c =>
    match c.shipping_address_id with
    | none => none
    | some sid =>
      match getAddressById s sid with
      | none => none
      | some checkoutShippingAddress =>
        if c.billing_address_id = c.shipping_address_id then
          match s.payment_cards.head? with
          | none => none
          | some _ => some (orderWriteList s checkoutShippingAddress false)
        else
          match c.billing_address_id with
          | none => none
          | some bid =>
            match getAddressById s bid with
            | none => none
            | some _ =>
              match s.payment_cards.head? with
              | none => none
              | some _ => some (orderWriteList s checkoutShippingAddress true)

/-- A full run of `addOrder`: every write step applied in order.  `none` is
the thrown exception when a required read fails (no successful commit). -/
def addOrder (s : DB) : Option DB :=
  (addOrderWrites s).map (fun ws => ws.foldl (fun st w => w st) s)

/-- A run of `addOrder` in which a failure is injected after the first `k`
persisted write steps: since the code does not run inside a transaction,
exactly those `k` writes remain persisted. -/
def addOrderUpTo (k : Nat) (s : DB) : Option DB :=
  (addOrderWrites s).map (fun ws => (ws.take k).foldl (fun st w => w st) s)

/-- The three cart mutations of the claims: AddProduct
(`POST /cart/add`), DecrementProduct (`POST /cart/remove`) and
DeleteProduct (`GET /cart/delete`). -/
inductive CartOp where
  | add (productId : Nat)
  | remove (productId : Nat)
  | del (productId : Nat)
deriving Repr, DecidableEq

/-- Apply one cart route to the state (the HTTP result is dropped). -/
def applyOp (s : DB) (op : CartOp) : DB :=
  match op with
  | .add pid => (cartAdd s pid).2
  | .remove pid => (cartRemove s pid).2
  | .del pid => (cartDelete s pid).2

/-- A freshly created cart row: the aggregate columns take their schema
defaults (`num_items`, `total`, `subtotal`, `taxes` all default 0) and no
`cart_product` rows exist. -/
def emptyCart (cartId : Nat) : Cart :=
  { id := cartId, num_items := 0, subtotal := 0, taxes := 0, total := 0,
    cart_product := [] }

/-- The state right after registration: a catalog, an empty cart, no
checkout session, no orders. -/
def initDB (products : List Product) : DB :=
  { products := products, cart := emptyCart 1, checkout := none,
    addresses := [], payment_cards := [], orders := [],
    order_products := [], next_id := 1 }

/-- Run a sequence of cart mutations left to right. -/
def runOps (s : DB) (ops : List CartOp) : DB := ops.foldl applyOp s

/-- `x` is an exact 2-decimal value (what a `DECIMAL(7,2)` column holds). -/
def Is2dp (x : ℚ) : Prop := ∃ k : ℤ, x = (k : ℚ) / 100

/-- The stored-total invariant of the claims: the cart's total column
equals the 2-decimal rounding of its subtotal column plus the 2-decimal
rounding of its taxes column. -/
def CartInv (c : Cart) : Prop :=
  c.total = round2 c.subtotal + round2 c.taxes

theorem is2dp_round2 (x : ℚ) : Is2dp (round2 x) := ⟨_, rfl⟩

theorem round2_of_is2dp {x : ℚ} (h : Is2dp x) : round2 x = x := by
  obtain ⟨k, rfl⟩ := h
  unfold round2
  rw [div_mul_cancel₀ _ (by norm_num : (100 : ℚ) ≠ 0)]
  rw [show ((k : ℚ) + 1/2) = (1:ℚ)/2 + k by ring]
  rw [Int.floor_add_int]
  norm_num

theorem is2dp_add {x y : ℚ} (hx : Is2dp x) (hy : Is2dp y) : Is2dp (x + y) := by
  obtain ⟨k, rfl⟩ := hx
  obtain ⟨m, rfl⟩ := hy
  exact ⟨k + m, by push_cast; ring⟩

/-- The write pattern shared by the three cart mutations
(`requests.js` lines 199-222, 252-275, 373-405): writing
`subtotal = u`, `taxes = v` and
`total = parseFloat(u.toFixed(2)) + parseFloat(v.toFixed(2))` through the
rounding `DECIMAL(7,2)` columns always satisfies the stored-total
invariant. -/
theorem written_total_inv (u v : ℚ) :
    round2 (round2 u + round2 v) = round2 (round2 u) + round2 (round2 v) := by
  rw [round2_of_is2dp (is2dp_add (is2dp_round2 u) (is2dp_round2 v)),
      round2_of_is2dp (is2dp_round2 u), round2_of_is2dp (is2dp_round2 v)]

theorem cartInv_addProductToCart {s s' : DB} {pid : Nat}
    (h : addProductToCart s pid = some s') : CartInv s'.cart := by
  unfold addProductToCart at h
  cases hfind : s.products.find? (fun p => p.id = pid) with
  | none => rw [hfind] at h; exact absurd h (by simp)
  | some product =>
    rw [hfind] at h
    simp only [Option.some.injEq] at h
    subst h
    simpa [CartInv] using written_total_inv _ _

theorem cartInv_removeProductFromCart {s s' : DB} {pid : Nat} {b : Bool}
    (hinv : CartInv s.cart)
    (h : removeProductFromCart s pid = some (b, s')) : CartInv s'.cart := by
  unfold removeProductFromCart at h
  cases hfind : s.cart.cart_product.find? (fun cp => cp.product_id = pid) with
  | none =>
    rw [hfind] at h
    simp only [Option.some.injEq, Prod.mk.injEq] at h
    rw [← h.2]; exact hinv
  | some foundProduct =>
    rw [hfind] at h
    dsimp only at h
    by_cases hq : 1 < foundProduct.quantity
    · rw [if_pos hq] at h
      cases hp : s.products.find? (fun p => p.id = pid) with
      | none => rw [hp] at h; exact absurd h (by simp)
      | some product =>
        rw [hp] at h
        simp only [Option.some.injEq, Prod.mk.injEq] at h
        rw [← h.2]
        simpa [CartInv] using written_total_inv _ _
    · rw [if_neg hq] at h
      simp only [Option.some.injEq, Prod.mk.injEq] at h
      rw [← h.2]; exact hinv

theorem cartInv_deleteProductFromCart {s s' : DB} {pid : Nat} {b : Bool}
    (hinv : CartInv s.cart)
    (h : deleteProductFromCart s pid = some (b, s')) : CartInv s'.cart := by
  unfold deleteProductFromCart at h
  cases hfind : s.cart.cart_product.find? (fun cp => cp.product_id = pid) with
  | none =>
    rw [hfind] at h
    simp only [Option.some.injEq, Prod.mk.injEq] at h
    rw [← h.2]; exact hinv
  | some foundProduct =>
    rw [hfind] at h
    cases hp : s.products.find? (fun p => p.id = pid) with
    | none => rw [hp] at h; exact absurd h (by simp)
    | some product =>
      rw [hp] at h
      simp only [Option.some.injEq, Prod.mk.injEq] at h
      rw [← h.2]
      simpa [CartInv] using written_total_inv _ _

theorem checkoutInvalidation_cart (s : DB) :
    (checkoutInvalidation s).cart = s.cart := by
  unfold checkoutInvalidation
  cases s.checkout <;> simp
  split <;> simp

theorem cartInv_applyOp {s : DB} (hinv : CartInv s.cart) (op : CartOp) :
    CartInv (applyOp s op).cart := by
  cases op with
  | add pid =>
    show CartInv (cartAdd s pid).2.cart
    unfold cartAdd
    cases hfind : s.products.find? (fun p => p.id = pid) with
    | none => exact hinv
    | some product =>
      simp only
      split
      · exact hinv
      · split
        · exact hinv
        · cases hadd : addProductToCart s pid with
          | none => exact hinv
          | some s1 =>
            have h1 := cartInv_addProductToCart hadd
            simp only
            cases s1.checkout <;> simpa using h1
  | remove pid =>
    show CartInv (cartRemove s pid).2.cart
    unfold cartRemove
    cases hfind : s.products.find? (fun p => p.id = pid) with
    | none => exact hinv
    | some product =>
      simp only
      cases hrem : removeProductFromCart s pid with
      | none => exact hinv
      | some r =>
        obtain ⟨b, s1⟩ := r
        have h1 := cartInv_removeProductFromCart hinv hrem
        cases b
        · exact h1
        · simpa [checkoutInvalidation_cart] using h1
  | del pid =>
    show CartInv (cartDelete s pid).2.cart
    unfold cartDelete
    cases hfind : s.products.find? (fun p => p.id = pid) with
    | none => exact hinv
    | some product =>
      simp only
      cases hdel : deleteProductFromCart s pid with
      | none => exact hinv
      | some r =>
        obtain ⟨b, s1⟩ := r
        have h1 := cartInv_deleteProductFromCart hinv hdel
        cases b
        · exact h1
        · simpa [checkoutInvalidation_cart] using h1

theorem cartInv_runOps {s : DB} (hinv : CartInv s.cart) (ops : List CartOp) :
    CartInv (runOps s ops).cart := by
  induction ops generalizing s with
  | nil => exact hinv
  | cons op ops ih => exact ih (cartInv_applyOp hinv op)

theorem cartInv_initDB (products : List Product) :
    CartInv (initDB products).cart := by
  have h0 : Is2dp (0 : ℚ) := ⟨0, by norm_num⟩
  simp [CartInv, initDB, emptyCart, round2_of_is2dp h0]

/-- The product of the spec's worked scenario: price 100.00, discount 10%. -/
def scenarioProduct : Product :=
  { id := 1, price := 100, discount_percent := 10, inventory := 5, total_sold := 0 }

/-- C8: the discounted unit price of a product is
`price × (1 − discountPercent/100)` with no rounding applied at that step;
for price 100.00 and discount 10% it is 90.00; on an initially empty cart,
adding that product twice yields subtotal 180.00, taxes 23.40 and total
203.40, and one subsequent DecrementProduct yields subtotal 90.00, taxes
11.70 and total 101.70. -/
theorem c8_discounted_price_scenario :
    (∀ p : Product,
        discountedUnitPrice p = p.price * (1 - (p.discount_percent : ℚ) / 100)) ∧
    discountedUnitPrice scenarioProduct = 90 ∧
    (let s2 := runOps (initDB [scenarioProduct]) [.add 1, .add 1]
     s2.cart.subtotal = 180 ∧ s2.cart.taxes = 23.40 ∧ s2.cart.total = 203.40) ∧
    (let s3 := runOps (initDB [scenarioProduct]) [.add 1, .add 1, .remove 1]
     s3.cart.subtotal = 90 ∧ s3.cart.taxes = 11.70 ∧ s3.cart.total = 101.70) := by
  refine ⟨fun p => by unfold discountedUnitPrice; ring, ?_, ?_, ?_⟩ <;>
    norm_num [runOps, applyOp, cartAdd, cartRemove, addProductToCart,
      removeProductFromCart, checkoutInvalidation, initDB, emptyCart,
      scenarioProduct, discountedUnitPrice, round2, List.find?, List.any]

/-- The session row created by `addCheckout`: only `user_id` and `cart_id`
are set, `stage` takes its schema default `"shipping"`. -/
def freshCheckoutSession (cartId : Nat) : CheckoutSession :=
  { cart_id := cartId, stage := "shipping", shipping_address_id := none,
    billing_address_id := none, payment_card_id := none }

/-- C9: starting checkout fails when the cart is empty (`num_items === 0`),
fails when the user already has a checkout session, and otherwise creates
the one session for the user, at stage `"shipping"`, referencing the
user's cart. -/
theorem c9_start_checkout :
    (∀ s : DB, s.cart.num_items = 0 → startCheckout s = (.cartEmpty, s)) ∧
    (∀ (s : DB) (c : CheckoutSession), ¬ s.cart.num_items = 0 →
        s.checkout = some c → startCheckout s = (.alreadyExists, s)) ∧
    (∀ s : DB, ¬ s.cart.num_items = 0 → s.checkout = none →
        startCheckout s =
          (.ok, { s with checkout := some (freshCheckoutSession s.cart.id) })) := by
  refine ⟨fun s h => ?_, fun s c h hc => ?_, fun s h hc => ?_⟩
  · simp [startCheckout, h]
  · simp [startCheckout, h, hc]
  · simp [startCheckout, freshCheckoutSession, h, hc]

/-- A state with an empty cart (for claim witnesses). -/
def exEmptyCartDB : DB := initDB [scenarioProduct]

/-- A state with one item in the cart and no checkout session. -/
def exOneItemDB : DB :=
  { exEmptyCartDB with cart :=
      { id := 1, num_items := 1, subtotal := 90, taxes := 117/10, total := 1017/10,
        cart_product := [{ product_id := 1, quantity := 1 }] } }

/-- A checkout session at stage `"confirmation"` with everything set. -/
def exConfirmationSession : CheckoutSession :=
  { cart_id := 1, stage := "confirmation", shipping_address_id := some 10,
    billing_address_id := some 10, payment_card_id := some 20 }

/-- `exOneItemDB` with an open checkout session at confirmation. -/
def exCheckoutDB : DB := { exOneItemDB with checkout := some exConfirmationSession }

theorem c9_start_checkout_witness :
    startCheckout exEmptyCartDB = (.cartEmpty, exEmptyCartDB) ∧
    startCheckout exCheckoutDB = (.alreadyExists, exCheckoutDB) ∧
    startCheckout exOneItemDB =
      (.ok, { exOneItemDB with checkout := some (freshCheckoutSession 1) }) :=
  ⟨c9_start_checkout.1 exEmptyCartDB rfl,
   c9_start_checkout.2.1 exCheckoutDB exConfirmationSession (by decide) rfl,
   c9_start_checkout.2.2 exOneItemDB (by decide) rfl⟩

theorem addProductToCart_eq {s : DB} {pid : Nat} {p : Product}
    (hfind : s.products.find? (fun q => q.id = pid) = some p) :
    addProductToCart s pid =
      some { s with cart := { s.cart with
        cart_product :=
          if (s.cart.cart_product.find? (fun cp => cp.product_id = pid)).isSome then
            s.cart.cart_product.map (fun cp =>
              if cp.product_id = pid then { cp with quantity := cp.quantity + 1 } else cp)
          else
            s.cart.cart_product ++ [{ product_id := pid, quantity := 1 }]
        subtotal := round2 (s.cart.subtotal + discountedUnitPrice p)
        taxes := round2 ((s.cart.subtotal + discountedUnitPrice p) * (13/100))
        total := round2 (round2 (s.cart.subtotal + discountedUnitPrice p) +
                  round2 ((s.cart.subtotal + discountedUnitPrice p) * (13/100)))
        num_items := s.cart.num_items + 1 } } := by
  unfold addProductToCart
  rw [hfind]

theorem removeProductFromCart_checkout {s s1 : DB} {pid : Nat} {b : Bool}
    (h : removeProductFromCart s pid = some (b, s1)) : s1.checkout = s.checkout := by
  unfold removeProductFromCart at h
  cases hfind : s.cart.cart_product.find? (fun cp => cp.product_id = pid) with
  | none =>
    rw [hfind] at h
    simp only [Option.some.injEq, Prod.mk.injEq] at h
    rw [← h.2]
  | some foundProduct =>
    rw [hfind] at h
    dsimp only at h
    by_cases hq : 1 < foundProduct.quantity
    · rw [if_pos hq] at h
      cases hp : s.products.find? (fun q => q.id = pid) with
      | none => rw [hp] at h; exact absurd h (by simp)
      | some product =>
        rw [hp] at h
        simp only [Option.some.injEq, Prod.mk.injEq] at h
        rw [← h.2]
    · rw [if_neg hq] at h
      simp only [Option.some.injEq, Prod.mk.injEq] at h
      rw [← h.2]

theorem deleteProductFromCart_checkout {s s1 : DB} {pid : Nat} {b : Bool}
    (h : deleteProductFromCart s pid = some (b, s1)) : s1.checkout = s.checkout := by
  unfold deleteProductFromCart at h
  cases hfind : s.cart.cart_product.find? (fun cp => cp.product_id = pid) with
  | none =>
    rw [hfind] at h
    simp only [Option.some.injEq, Prod.mk.injEq] at h
    rw [← h.2]
  | some foundProduct =>
    rw [hfind] at h
    dsimp only at h
    cases hp : s.products.find? (fun q => q.id = pid) with
    | none => rw [hp] at h; exact absurd h (by simp)
    | some product =>
      rw [hp] at h
      simp only [Option.some.injEq, Prod.mk.injEq] at h
      rw [← h.2]

theorem checkoutInvalidation_spec {s : DB} {c : CheckoutSession}
    (hc : s.checkout = some c) :
    (s.cart.num_items = 0 → (checkoutInvalidation s).checkout = none) ∧
    (¬ s.cart.num_items = 0 →
      (checkoutInvalidation s).checkout = some { c with stage := "shipping" }) ∧
    (checkoutInvalidation s).cart = s.cart := by
  unfold checkoutInvalidation
  rw [hc]
  dsimp only
  by_cases hz : s.cart.num_items = 0
  · rw [if_pos hz]; exact ⟨fun _ => rfl, fun h => absurd hz h, rfl⟩
  · rw [if_neg hz]; exact ⟨fun h => absurd h hz, fun _ => rfl, rfl⟩

/-- C4: DecrementProduct on a cart line of quantity exactly 1 is a no-op
returning "not removed" (false) and leaves the state (hence the line)
unchanged; DeleteProduct on a line succeeds, removes the whole line
regardless of quantity, and decrements `num_items` by the full line
quantity. -/
theorem c4_decrement_vs_delete :
    (∀ (s : DB) (pid : Nat) (cp : CartProduct),
        s.cart.cart_product.find? (fun l => l.product_id = pid) = some cp →
        cp.quantity = 1 →
        removeProductFromCart s pid = some (false, s)) ∧
    (∀ (s : DB) (pid : Nat) (p : Product) (cp : CartProduct),
        s.products.find? (fun q => q.id = pid) = some p →
        s.cart.cart_product.find? (fun l => l.product_id = pid) = some cp →
        (cartDelete s pid).1 = .ok ∧
        (cartDelete s pid).2.cart.cart_product =
          s.cart.cart_product.filter (fun l => ¬ l.product_id = pid) ∧
        (cartDelete s pid).2.cart.num_items = s.cart.num_items - cp.quantity) := by
  constructor
  · intro s pid cp hfind hq
    unfold removeProductFromCart
    rw [hfind]
    dsimp only
    rw [if_neg (by rw [hq]; exact lt_irrefl 1)]
  · intro s pid p cp hp hfind
    have hdel : ∃ s1, deleteProductFromCart s pid = some (true, s1) ∧
        s1.cart.cart_product =
          s.cart.cart_product.filter (fun l => ¬ l.product_id = pid) ∧
        s1.cart.num_items = s.cart.num_items - cp.quantity := by
      unfold deleteProductFromCart
      rw [hfind]
      dsimp only
      rw [hp]
      exact ⟨_, rfl, rfl, rfl⟩
    obtain ⟨s1, hdel, hlines, hitems⟩ := hdel
    have hres : cartDelete s pid = (.ok, checkoutInvalidation s1) := by
      unfold cartDelete
      rw [hp]
      dsimp only
      rw [hdel]
    have hcart : (checkoutInvalidation s1).cart = s1.cart := checkoutInvalidation_cart s1
    rw [hres]
    exact ⟨rfl, by rw [hcart]; exact hlines, by rw [hcart]; exact hitems⟩

/-- A cart state whose single line has quantity 1 (for claim witnesses). -/
def exQty1DB : DB := exOneItemDB

theorem c4_decrement_vs_delete_witness :
    removeProductFromCart exQty1DB 1 = some (false, exQty1DB) ∧
    (cartDelete exQty1DB 1).1 = .ok ∧
    (cartDelete exQty1DB 1).2.cart.cart_product = [] ∧
    (cartDelete exQty1DB 1).2.cart.num_items = 0 := by
  have h1 := c4_decrement_vs_delete.1 exQty1DB 1
    { product_id := 1, quantity := 1 } (by decide) rfl
  have h2 := c4_decrement_vs_delete.2 exQty1DB 1 scenarioProduct
    { product_id := 1, quantity := 1 } (by decide) (by decide)
  exact ⟨h1, h2.1, h2.2.1, h2.2.2⟩

/-- C6: while a checkout session exists, a successful AddProduct resets
the session's stage to `"shipping"` (from any stage, confirmation
included); after a successful DecrementProduct or DeleteProduct, if the
cart is now empty the session is deleted outright, otherwise its stage is
reset to `"shipping"`. -/
theorem c6_checkout_invalidation :
    (∀ (s : DB) (pid : Nat) (c : CheckoutSession), s.checkout = some c →
        (cartAdd s pid).1 = .ok →
        (cartAdd s pid).2.checkout = some { c with stage := "shipping" }) ∧
    (∀ (s : DB) (pid : Nat) (c : CheckoutSession), s.checkout = some c →
        (cartRemove s pid).1 = .ok →
        ((cartRemove s pid).2.cart.num_items = 0 →
          (cartRemove s pid).2.checkout = none) ∧
        (¬ (cartRemove s pid).2.cart.num_items = 0 →
          (cartRemove s pid).2.checkout = some { c with stage := "shipping" })) ∧
    (∀ (s : DB) (pid : Nat) (c : CheckoutSession), s.checkout = some c →
        (cartDelete s pid).1 = .ok →
        ((cartDelete s pid).2.cart.num_items = 0 →
          (cartDelete s pid).2.checkout = none) ∧
        (¬ (cartDelete s pid).2.cart.num_items = 0 →
          (cartDelete s pid).2.checkout = some { c with stage := "shipping" })) := by
  refine ⟨?_, ?_, ?_⟩
  · intro s pid c hc hok
    cases hfind : s.products.find? (fun q => q.id = pid) with
    | none =>
      unfold cartAdd at hok
      rw [hfind] at hok
      exact absurd hok (by simp)
    | some p =>
      unfold cartAdd at hok ⊢
      rw [hfind] at hok ⊢
      dsimp only at hok ⊢
      by_cases hinv : p.inventory = 0
      · rw [if_pos hinv] at hok; exact absurd hok (by simp)
      · rw [if_neg hinv] at hok ⊢
        by_cases hguard : (s.cart.cart_product.any
            (fun cp => cp.product_id = pid ∧ cp.quantity = p.inventory)) = true
        · rw [if_pos hguard] at hok; exact absurd hok (by simp)
        · rw [if_neg hguard] at hok ⊢
          rw [addProductToCart_eq hfind] at hok ⊢
          dsimp only at hok ⊢
          rw [show ({ s with cart := _ } : DB).checkout = s.checkout from rfl, hc]
  · intro s pid c hc hok
    cases hfind : s.products.find? (fun q => q.id = pid) with
    | none =>
      unfold cartRemove at hok
      rw [hfind] at hok
      exact absurd hok (by simp)
    | some p =>
      cases hrem : removeProductFromCart s pid with
      | none =>
        unfold cartRemove at hok
        rw [hfind, hrem] at hok
        exact absurd hok (by simp)
      | some r =>
        obtain ⟨b, s1⟩ := r
        unfold cartRemove at hok ⊢
        rw [hfind, hrem] at hok ⊢
        cases b with
        | false => exact absurd hok (by simp)
        | true =>
          dsimp only at hok ⊢
          have hck : s1.checkout = some c := by
            rw [removeProductFromCart_checkout hrem, hc]
          obtain ⟨h0, h1, h2⟩ := checkoutInvalidation_spec hck
          rw [h2]
          exact ⟨h0, h1⟩
  · intro s pid c hc hok
    cases hfind : s.products.find? (fun q => q.id = pid) with
    | none =>
      unfold cartDelete at hok
      rw [hfind] at hok
      exact absurd hok (by simp)
    | some p =>
      cases hrem : deleteProductFromCart s pid with
      | none =>
        unfold cartDelete at hok
        rw [hfind, hrem] at hok
        exact absurd hok (by simp)
      | some r =>
        obtain ⟨b, s1⟩ := r
        unfold cartDelete at hok ⊢
        rw [hfind, hrem] at hok ⊢
        cases b with
        | false => exact absurd hok (by simp)
        | true =>
          dsimp only at hok ⊢
          have hck : s1.checkout = some c := by
            rw [deleteProductFromCart_checkout hrem, hc]
          obtain ⟨h0, h1, h2⟩ := checkoutInvalidation_spec hck
          rw [h2]
          exact ⟨h0, h1⟩

theorem c6_checkout_invalidation_witness :
    (cartAdd exCheckoutDB 1).2.checkout =
      some { exConfirmationSession with stage := "shipping" } ∧
    (cartDelete exCheckoutDB 1).2.checkout = none := by
  have h1 := c6_checkout_invalidation.1 exCheckoutDB 1 exConfirmationSession rfl
    (by norm_num [cartAdd, addProductToCart, exCheckoutDB, exOneItemDB,
      exEmptyCartDB, initDB, scenarioProduct, List.find?, List.any])
  have h2 := c6_checkout_invalidation.2.2 exCheckoutDB 1 exConfirmationSession rfl
    (by norm_num [cartDelete, deleteProductFromCart, checkoutInvalidation,
      exCheckoutDB, exOneItemDB, exEmptyCartDB, initDB, scenarioProduct,
      exConfirmationSession, List.find?, List.filter, discountedUnitPrice,
      floor2, round1, round2])
  refine ⟨h1, ?_⟩
  apply h2.1
  norm_num [cartDelete, deleteProductFromCart, checkoutInvalidation,
    exCheckoutDB, exOneItemDB, exEmptyCartDB, initDB, scenarioProduct,
    exConfirmationSession, List.find?, List.filter, discountedUnitPrice,
    floor2, round1, round2]

/-- C10 (implicit): the AddProduct inventory guard fires only on exact
equality (`cartProduct.quantity === product.inventory`): given the product
exists with nonzero inventory, the route fails with InsufficientInventory
iff some cart line for the product has quantity exactly equal to the
inventory; when every such line strictly exceeds the inventory, the add
succeeds and increments the quantity further. -/
theorem c10_guard_exact_equality :
    (∀ (s : DB) (pid : Nat) (p : Product),
        s.products.find? (fun q => q.id = pid) = some p →
        ¬ p.inventory = 0 →
        ((cartAdd s pid).1 = .insufficientInventory ↔
          ∃ cp ∈ s.cart.cart_product,
            cp.product_id = pid ∧ cp.quantity = p.inventory)) ∧
    (∀ (s : DB) (pid : Nat) (p : Product),
        s.products.find? (fun q => q.id = pid) = some p →
        ¬ p.inventory = 0 →
        (∀ cp ∈ s.cart.cart_product, cp.product_id = pid →
          p.inventory < cp.quantity) →
        (cartAdd s pid).1 = .ok ∧
        (cartAdd s pid).2.cart.cart_product =
          (if (s.cart.cart_product.find? (fun cp => cp.product_id = pid)).isSome then
            s.cart.cart_product.map (fun cp =>
              if cp.product_id = pid then { cp with quantity := cp.quantity + 1 } else cp)
          else
            s.cart.cart_product ++ [{ product_id := pid, quantity := 1 }])) := by
  have hiff : ∀ (s : DB) (pid : Nat) (p : Product),
      ((s.cart.cart_product.any
        (fun cp => cp.product_id = pid ∧ cp.quantity = p.inventory)) = true ↔
      ∃ cp ∈ s.cart.cart_product,
        cp.product_id = pid ∧ cp.quantity = p.inventory) := by
    intro s pid p
    simp [List.any_eq_true]
  constructor
  · intro s pid p hfind hinv
    constructor
    · intro hres
      by_contra hne
      have hany : ¬ ((s.cart.cart_product.any
          (fun cp => cp.product_id = pid ∧ cp.quantity = p.inventory)) = true) :=
        fun h => hne ((hiff s pid p).mp h)
      unfold cartAdd at hres
      rw [hfind] at hres
      dsimp only at hres
      rw [if_neg hinv, if_neg hany] at hres
      rw [addProductToCart_eq hfind] at hres
      dsimp only at hres
      revert hres
      cases s.checkout <;> simp
    · intro hex
      unfold cartAdd
      rw [hfind]
      dsimp only
      rw [if_neg hinv, if_pos ((hiff s pid p).mpr hex)]
  · intro s pid p hfind hinv hgt
    have hany : ¬ ((s.cart.cart_product.any
        (fun cp => cp.product_id = pid ∧ cp.quantity = p.inventory)) = true) := by
      intro h
      obtain ⟨cp, hmem, hpid, hqty⟩ := (hiff s pid p).mp h
      exact (hgt cp hmem hpid).ne' hqty
    unfold cartAdd
    rw [hfind]
    dsimp only
    rw [if_neg hinv, if_neg hany]
    rw [addProductToCart_eq hfind]
    dsimp only
    cases s.checkout <;> exact ⟨rfl, rfl⟩

/-- A state whose cart line quantity (5) strictly exceeds the product's
inventory (3): reachable when inventory is reduced after items were added. -/
def exOverstockDB : DB :=
  { initDB [{ id := 1, price := 10, discount_percent := 0, inventory := 3,
              total_sold := 0 }] with
    cart := { id := 1, num_items := 5, subtotal := 50, taxes := 13/2,
              total := 113/2,
              cart_product := [{ product_id := 1, quantity := 5 }] } }

theorem c10_guard_exact_equality_witness :
    (¬ (cartAdd exOverstockDB 1).1 = .insufficientInventory) ∧
    (cartAdd exOverstockDB 1).1 = .ok ∧
    (cartAdd exOverstockDB 1).2.cart.cart_product =
      [{ product_id := 1, quantity := 6 }] := by
  have hfind : exOverstockDB.products.find? (fun q => q.id = 1) =
      some { id := 1, price := 10, discount_percent := 0, inventory := 3,
             total_sold := 0 } := by decide
  have h1 := (c10_guard_exact_equality.1 exOverstockDB 1 _ hfind (by decide)).not.mpr
    (by decide)
  have h2 := c10_guard_exact_equality.2 exOverstockDB 1 _ hfind (by decide)
    (by decide)
  exact ⟨by simpa using h1, h2.1, by simpa using h2.2⟩

/-- The state after `k` AddProduct calls for product `p` starting from an
empty cart whose catalog is exactly `[p]`. -/
def addsState (p : Product) (k : Nat) : DB :=
  runOps (initDB [p]) (List.replicate k (.add p.id))

theorem addsState_succ (p : Product) (k : Nat) :
    addsState p (k + 1) = (cartAdd (addsState p k) p.id).2 := by
  unfold addsState runOps
  rw [List.replicate_succ', List.foldl_append]
  rfl

theorem cartAdd_shape_step (p : Product) (hinv : ¬ p.inventory = 0)
    (k : Nat) (s : DB) (hprod : s.products = [p]) (hck : s.checkout = none)
    (hlines : s.cart.cart_product =
      (if k = 0 then [] else [{ product_id := p.id, quantity := (k : Int) }]))
    (hne : ¬ (k : Int) = p.inventory) :
    (cartAdd s p.id).1 = .ok ∧ (cartAdd s p.id).2.products = [p] ∧
    (cartAdd s p.id).2.checkout = none ∧
    (cartAdd s p.id).2.cart.cart_product =
      [{ product_id := p.id, quantity := ((k : Int) + 1) }] := by
  have hfind : s.products.find? (fun q => q.id = p.id) = some p := by
    rw [hprod]; simp [List.find?]
  have hguard : ¬ ((s.cart.cart_product.any
      (fun cp => cp.product_id = p.id ∧ cp.quantity = p.inventory)) = true) := by
    rw [hlines]
    by_cases hk : k = 0
    · simp [hk]
    · simp [hk, hne]
  unfold cartAdd
  rw [hfind]
  dsimp only
  rw [if_neg hinv, if_neg hguard]
  rw [addProductToCart_eq hfind]
  dsimp only
  rw [hck]
  dsimp only
  refine ⟨rfl, hprod, rfl, ?_⟩
  rw [hlines]
  by_cases hk : k = 0
  · simp [hk]
  · simp [hk, List.find?]

theorem addsState_shape (p : Product) (hinv1 : 1 ≤ p.inventory) :
    ∀ k : Nat, (k : Int) ≤ p.inventory →
      (addsState p k).products = [p] ∧ (addsState p k).checkout = none ∧
      (addsState p k).cart.cart_product =
        (if k = 0 then [] else [{ product_id := p.id, quantity := (k : Int) }]) := by
  intro k
  induction k with
  | zero =>
    intro _
    refine ⟨rfl, rfl, ?_⟩
    simp [addsState, runOps, initDB, emptyCart]
  | succ k ih =>
    intro hk1
    have hk : (k : Int) ≤ p.inventory := by push_cast at hk1 ⊢; omega
    obtain ⟨hp, hc, hl⟩ := ih hk
    have hne : ¬ (k : Int) = p.inventory := by push_cast at hk1; omega
    have hstep := cartAdd_shape_step p (by omega) k (addsState p k) hp hc hl hne
    rw [addsState_succ]
    refine ⟨hstep.2.1, hstep.2.2.1, ?_⟩
    rw [hstep.2.2.2]
    simp

/-- C3: AddProduct fails with NotFound when the product does not exist,
with OutOfStock when its inventory is 0, and with InsufficientInventory
when a cart line for it already has quantity equal to the inventory;
consequently, on an empty cart and a product whose inventory is exactly
`N ≥ 1`, the first `N` adds all succeed and the `(N+1)`-th add (the add
performed after `N` successful ones) fails with InsufficientInventory. -/
theorem c3_add_inventory_guard :
    (∀ (s : DB) (pid : Nat), s.products.find? (fun q => q.id = pid) = none →
        cartAdd s pid = (.productNotFound, s)) ∧
    (∀ (s : DB) (pid : Nat) (p : Product),
        s.products.find? (fun q => q.id = pid) = some p → p.inventory = 0 →
        cartAdd s pid = (.outOfStock, s)) ∧
    (∀ (s : DB) (pid : Nat) (p : Product) (cp : CartProduct),
        s.products.find? (fun q => q.id = pid) = some p → ¬ p.inventory = 0 →
        cp ∈ s.cart.cart_product → cp.product_id = pid →
        cp.quantity = p.inventory →
        cartAdd s pid = (.insufficientInventory, s)) ∧
    (∀ p : Product, 1 ≤ p.inventory → ∀ k : Nat,
        ((k : Int) < p.inventory →
          (cartAdd (addsState p k) p.id).1 = .ok) ∧
        ((k : Int) = p.inventory →
          (cartAdd (addsState p k) p.id).1 = .insufficientInventory)) := by
  refine ⟨?_, ?_, ?_, ?_⟩
  · intro s pid hfind
    unfold cartAdd
    rw [hfind]
  · intro s pid p hfind hz
    unfold cartAdd
    rw [hfind]
    dsimp only
    rw [if_pos hz]
  · intro s pid p cp hfind hz hmem hpid hqty
    have hany : (s.cart.cart_product.any
        (fun cp => cp.product_id = pid ∧ cp.quantity = p.inventory)) = true := by
      simp only [List.any_eq_true, decide_eq_true_eq]
      exact ⟨cp, hmem, hpid, hqty⟩
    unfold cartAdd
    rw [hfind]
    dsimp only
    rw [if_neg hz, if_pos hany]
  · intro p hinv1 k
    constructor
    · intro hk
      obtain ⟨hp, hc, hl⟩ := addsState_shape p hinv1 k (le_of_lt hk)
      exact (cartAdd_shape_step p (by omega) k (addsState p k) hp hc hl
        (ne_of_lt hk)).1
    · intro hk
      have hkz : ¬ k = 0 := by
        intro h
        rw [h] at hk
        simp at hk
        omega
      obtain ⟨hp, hc, hl⟩ := addsState_shape p hinv1 k (le_of_eq hk)
      have hfind : (addsState p k).products.find? (fun q => q.id = p.id) = some p := by
        rw [hp]; simp [List.find?]
      have hany : ((addsState p k).cart.cart_product.any
          (fun cp => cp.product_id = p.id ∧ cp.quantity = p.inventory)) = true := by
        rw [hl, if_neg hkz]
        simp [hk]
      unfold cartAdd
      rw [hfind]
      dsimp only
      rw [if_neg (by omega), if_pos hany]

/-- The product used in the C3 witness: inventory exactly 2. -/
def exInv2Product : Product :=
  { id := 7, price := 10, discount_percent := 0, inventory := 2, total_sold := 0 }

/-- A state whose single cart line quantity equals the product inventory. -/
def exFullLineDB : DB :=
  { initDB [{ id := 1, price := 10, discount_percent := 0, inventory := 1,
              total_sold := 0 }] with
    cart := { id := 1, num_items := 1, subtotal := 10, taxes := 1, total := 11,
              cart_product := [{ product_id := 1, quantity := 1 }] } }

theorem c3_add_inventory_guard_witness :
    cartAdd (initDB []) 7 = (.productNotFound, initDB []) ∧
    cartAdd (initDB [{ exInv2Product with inventory := 0 }]) 7 =
      (.outOfStock, initDB [{ exInv2Product with inventory := 0 }]) ∧
    cartAdd exFullLineDB 1 = (.insufficientInventory, exFullLineDB) ∧
    (cartAdd (addsState exInv2Product 0) 7).1 = .ok ∧
    (cartAdd (addsState exInv2Product 1) 7).1 = .ok ∧
    (cartAdd (addsState exInv2Product 2) 7).1 = .insufficientInventory :=
  ⟨c3_add_inventory_guard.1 (initDB []) 7 rfl,
   c3_add_inventory_guard.2.1 (initDB [{ exInv2Product with inventory := 0 }]) 7
     { exInv2Product with inventory := 0 } rfl rfl,
   c3_add_inventory_guard.2.2.1 exFullLineDB 1
     { id := 1, price := 10, discount_percent := 0, inventory := 1, total_sold := 0 }
     { product_id := 1, quantity := 1 } rfl (by decide)
     (by simp [exFullLineDB]) rfl rfl,
   (c3_add_inventory_guard.2.2.2 exInv2Product (by decide) 0).1 (by decide),
   (c3_add_inventory_guard.2.2.2 exInv2Product (by decide) 1).1 (by decide),
   (c3_add_inventory_guard.2.2.2 exInv2Product (by decide) 2).2 (by decide)⟩

/-- C1: for every sequence of AddProduct, DecrementProduct and
DeleteProduct operations applied to an initially empty cart (any catalog),
after every operation the cart's stored total equals the 2-decimal-rounded
stored subtotal plus the 2-decimal-rounded stored taxes exactly — the
quantification over all sequences covers every intermediate state. -/
theorem c1_stored_total_invariant (products : List Product) (ops : List CartOp) :
    (runOps (initDB products) ops).cart.total =
      round2 (runOps (initDB products) ops).cart.subtotal +
        round2 (runOps (initDB products) ops).cart.taxes :=
  cartInv_runOps (cartInv_initDB products) ops

/-- A fully set-up confirmation-stage state: one product (inventory 5),
a cart with one line of quantity 2, a checkout session at confirmation
with shipping = billing address 10 and payment card 20. -/
def exOrderDB : DB :=
  { products := [{ id := 1, price := 100, discount_percent := 0, inventory := 5,
                   total_sold := 0 }],
    cart := { id := 1, num_items := 2, subtotal := 200, taxes := 26, total := 226,
              cart_product := [{ product_id := 1, quantity := 2 }] },
    checkout := some exConfirmationSession,
    addresses := [{ id := 10, address_type := "shipping_primary" }],
    payment_cards := [{ id := 20, payment_card_type := "user" }],
    orders := [], order_products := [], next_id := 100 }

/-- C5: every successful order commit leaves the source cart with
`num_items = 0`, `subtotal = 0`, `taxes = 0`, `total = 0` and zero cart
lines, while the cart row itself survives (same row id, updated in place —
`addOrder` contains no cart deletion), and the checkout session deleted. -/
theorem orderWriteList_foldl (s : DB) (addr : Address) (b : Bool) :
    ((orderWriteList s addr b).foldl (fun st w => w st) s).cart.id = s.cart.id ∧
    ((orderWriteList s addr b).foldl (fun st w => w st) s).cart.num_items = 0 ∧
    ((orderWriteList s addr b).foldl (fun st w => w st) s).cart.subtotal = 0 ∧
    ((orderWriteList s addr b).foldl (fun st w => w st) s).cart.taxes = 0 ∧
    ((orderWriteList s addr b).foldl (fun st w => w st) s).cart.total = 0 ∧
    ((orderWriteList s addr b).foldl (fun st w => w st) s).cart.cart_product = [] ∧
    ((orderWriteList s addr b).foldl (fun st w => w st) s).checkout = none := by
  cases b <;> by_cases halt : addr.address_type = "shipping_alternate" <;>
    simp [orderWriteList, halt, List.foldl]

theorem c5_commit_resets_cart (s : DB) (h : (addOrder s).isSome) :
    ((addOrder s).get h).cart.id = s.cart.id ∧
    ((addOrder s).get h).cart.num_items = 0 ∧
    ((addOrder s).get h).cart.subtotal = 0 ∧
    ((addOrder s).get h).cart.taxes = 0 ∧
    ((addOrder s).get h).cart.total = 0 ∧
    ((addOrder s).get h).cart.cart_product = [] ∧
    ((addOrder s).get h).checkout = none := by
  cases hw : addOrderWrites s with
  | none =>
    exfalso
    unfold addOrder at h
    rw [hw] at h
    simp at h
  | some ws =>
    have hval : addOrder s = some (ws.foldl (fun st w => w st) s) := by
      unfold addOrder
      rw [hw]
      rfl
    have hget : (addOrder s).get h = ws.foldl (fun st w => w st) s := by
      simp [hval]
    rw [hget]
    clear hval hget h
    unfold addOrderWrites at hw
    revert hw
    cases hc : s.checkout with
    | none => intro hw; simp at hw
    | some c =>
      dsimp only
      cases hsid : c.shipping_address_id with
      | none => intro hw; simp at hw
      | some sid =>
        dsimp only
        cases hship : getAddressById s sid with
        | none => intro hw; simp at hw
        | some addr =>
          dsimp only
          by_cases hbd : c.billing_address_id = some sid
          · rw [if_pos hbd]
            cases hcard : s.payment_cards.head? with
            | none => intro hw; simp at hw
            | some card =>
              dsimp only
              intro hw
              simp only [Option.some.injEq] at hw
              subst hw
              exact orderWriteList_foldl s addr false
          · rw [if_neg hbd]
            cases hbid : c.billing_address_id with
            | none => intro hw; simp at hw
            | some bid =>
              dsimp only
              cases hbaddr : getAddressById s bid with
              | none => intro hw; simp at hw
              | some baddr =>
                dsimp only
                cases hcard : s.payment_cards.head? with
                | none => intro hw; simp at hw
                | some card =>
                  dsimp only
                  intro hw
                  simp only [Option.some.injEq] at hw
                  subst hw
                  exact orderWriteList_foldl s addr true

theorem c5_commit_resets_cart_witness :
    ((addOrder exOrderDB).get (by rfl)).cart.id = 1 ∧
    ((addOrder exOrderDB).get (by rfl)).cart.num_items = 0 ∧
    ((addOrder exOrderDB).get (by rfl)).cart.cart_product = [] ∧
    ((addOrder exOrderDB).get (by rfl)).checkout = none := by
  have h := c5_commit_resets_cart exOrderDB (by rfl)
  exact ⟨h.1, h.2.1, h.2.2.2.2.2.1, h.2.2.2.2.2.2⟩

/-- C2 (refuted on the code): `addOrder` runs its persisted writes as a
plain sequence of individual Prisma calls with no enclosing transaction.
For `exOrderDB` the sequence has exactly 8 write steps, the last one being
the inventory/total-sold update loop; a failure injected right before that
step (after the first 7 writes) leaves the Order row, the OrderLine row,
the checkout deletion and the cart reset all persisted — contradicting
"no Order record, no OrderLine records ... remain persisted". -/
theorem c2_commit_not_atomic :
    (addOrderWrites exOrderDB).map List.length = some 8 ∧
    (addOrderUpTo 7 exOrderDB).map
      (fun t => (t.orders.length, t.order_products.length, t.checkout,
                 t.cart.num_items, t.cart.cart_product, t.products)) =
      some (1, 1, none, 0, [], exOrderDB.products) := by
  exact ⟨rfl, rfl⟩

/-- `exOrderDB` with product inventory 1 while the cart line has
quantity 2: the decrement at commit would drive inventory negative. -/
def exNegInventoryDB : DB :=
  { exOrderDB with products := [{ id := 1, price := 100, discount_percent := 0,
                                  inventory := 1, total_sold := 0 }] }

/-- C7 (refuted on the code): `addOrder` increments `total_sold` and
decrements `inventory` by each line quantity but performs no insufficiency
check whatsoever: with inventory 1 and line quantity 2 the commit succeeds
(an order row is created) and the persisted inventory is −1. -/
theorem c7_inventory_goes_negative :
    (addOrder exNegInventoryDB).map
      (fun t => (t.products, t.orders.length, t.checkout)) =
      some ([{ id := 1, price := 100, discount_percent := 0, inventory := -1,
               total_sold := 2 }], 1, none) := by
  exact rfl

end ElectronicsStore
